import Mathlib

/-!
Shallow embedding of `clone_all.py` (GitLab Cloner).

The program is a GTK window with handlers:
  * `get_group_id`            — resolve a group name via `GET /groups?search=...`
  * `get_projects_from_group` — list projects via `GET /groups/<id>/projects?per_page=100`
  * `get_projects`            — compose the two
  * `on_check_clicked`        — clear the ListStore and refill it from a fetch
  * `on_cell_toggled`         — flip the boolean column of one row
  * `on_select_all_clicked`   — set the boolean column of every row
  * `on_clone_clicked`        — run `git clone` for every selected row, updating a progress bar
  * `clone_project`           — derive a target directory and invoke `git clone`

HTTP is modelled by passing the API as a function from the request's data to a
response; the GTK ListStore (columns bool, str, str) is a `List Row`; the
external `git` executable is an oracle from the invocation to its exit code;
the progress bar's float fractions are modelled exactly as rationals.
-/

namespace CloneAll

/-- One element of the JSON array returned by `GET /groups?search=...`;
the code reads only its `id` field (`response.json()[0]["id"]`). -/
structure GroupObj where
  id : Int
deriving DecidableEq, Repr

/-- One element of the JSON array returned by `GET /groups/<id>/projects`;
the code reads `name` and `ssh_url_to_repo`. -/
structure ApiProject where
  name : String
  ssh_url_to_repo : String
deriving DecidableEq, Repr

/-- An HTTP response to the group-search request: status code plus decoded JSON body. -/
structure GroupsResponse where
  status_code : Nat
  body : List GroupObj
deriving DecidableEq, Repr

/-- An HTTP response to the project-listing request: status code plus decoded JSON body. -/
structure ProjectsResponse where
  status_code : Nat
  body : List ApiProject
deriving DecidableEq, Repr

/-- 2xx-success predicate on HTTP status codes (the spec's taxonomy; the code
itself compares to 200 only). -/
def is2xx (status : Nat) : Bool :=
  200 ≤ status && status < 300

/-- `get_group_id` (clone_all.py:123-140). The API is passed as a function from
(token, search string) to the response of `GET /groups?search=<group_name>`.
Source: `if response.status_code == 200 and response.json(): return
response.json()[0]["id"]` — Python list truthiness is non-emptiness — `return None`. -/
def get_group_id (groupsApi : String → String → GroupsResponse)
    (token group_name : String) : Option Int :=
  let response := groupsApi token group_name
  if response.status_code = 200 then
    match response.body with
    | [] => none
    | g :: _ => some g.id
  else
    none

/-- `get_projects_from_group` (clone_all.py:142-163). The API is passed as a
function from (token, group id, per_page, page) to the response. The source
requests `/groups/<id>/projects?per_page=100` with NO page parameter, so the
API's default first page is what it receives: the call below fixes
`per_page := 100, page := 1`. On 200 it maps each object to
`(name, ssh_url_to_repo)`; otherwise it returns `[]`. -/
def get_projects_from_group (projectsApi : String → Int → Nat → Nat → ProjectsResponse)
    (token : String) (group_id : Int) : List (String × String) :=
  let response := projectsApi token group_id 100 1
  if response.status_code = 200 then
    response.body.map (fun project => (project.name, project.ssh_url_to_repo))
  else
    []

/-- `get_projects` (clone_all.py:107-121): resolve the group, then list its
projects. Source: `if group_id:` — Python truthiness, so both `None` and the
integer `0` fall through to `return []`. -/
def get_projects (groupsApi : String → String → GroupsResponse)
    (projectsApi : String → Int → Nat → Nat → ProjectsResponse)
    (token group_name : String) : List (String × String) :=
  match get_group_id groupsApi token group_name with
  | some group_id =>
      if group_id ≠ 0 then get_projects_from_group projectsApi token group_id else []
  | none => []

/-- A faithful mock of GitLab's paginated project-listing endpoint over a fixed
backing list: page `n` (1-based) of size `per_page` is the corresponding slice,
empty once the list is exhausted; every request succeeds with status 200. -/
def pagedApi (allProjects : List ApiProject) : String → Int → Nat → Nat → ProjectsResponse :=
  fun _ _ per_page page => ⟨200, (allProjects.drop ((page - 1) * per_page)).take per_page⟩

/-- A concrete backing list of `n` distinct projects for the mock API. -/
def mockProjects (n : Nat) : List ApiProject :=
  (List.range n).map (fun i =>
    ⟨"proj" ++ toString i, "git@gitlab.com:g/proj" ++ toString i ++ ".git"⟩)

/-- One row of `self.projects_store = Gtk.ListStore(bool, str, str)`:
(selected flag, project name, ssh clone URL) — filled by
`append([False, project[0], project[1]])`. -/
abbrev Row : Type := Bool × String × String

/-- `on_cell_toggled` (clone_all.py:80-88):
`self.projects_store[path][0] = not self.projects_store[path][0]` — flip the
boolean column of the row at `path`, leaving the other rows and columns alone. -/
def on_cell_toggled : List Row → Nat → List Row
  | [], _ => []
  | r :: rs, 0 => (!r.1, r.2) :: rs
  | r :: rs, n + 1 => r :: on_cell_toggled rs n

/-- `on_check_clicked` (clone_all.py:90-105), after the fetch: the handler calls
`self.get_projects(token, group_name)` to obtain `projects`, then
`self.projects_store.clear()` and appends `[False, project[0], project[1]]` for
each fetched project, in order. The old store is the first argument; the fetch
result is the second. -/
def on_check_clicked (_store : List Row) (projects : List (String × String)) : List Row :=
  let cleared : List Row := []
  projects.foldl (fun s project => s ++ [(false, project.1, project.2)]) cleared

/-- `on_select_all_clicked` (clone_all.py:189-198): `for row in
self.projects_store: row[0] = True`. -/
def on_select_all_clicked (store : List Row) : List Row :=
  store.map (fun row => (true, row.2))

/-- The selected subset of the store, in store order: this is the filtering the
clone loop performs (`for row in self.projects_store: ... if is_selected`,
clone_all.py:179-181) and the spec's `Selected()`. -/
def selectedRows (store : List Row) : List Row :=
  store.filter (fun row => row.1)

/-- Python's `str.split(sep)` for a one-character separator, on the character
list: split at every `'/'`, keeping empty segments; never returns `[]`. -/
def pySplitSlashAux : List Char → List Char → List (List Char)
  | [], acc => [acc.reverse]
  | '/' :: rest, acc => acc.reverse :: pySplitSlashAux rest []
  | c :: rest, acc => pySplitSlashAux rest (c :: acc)

/-- `s.split("/")` from clone_all.py:221. -/
def pySplitSlash (s : String) : List String :=
  (pySplitSlashAux s.toList []).map String.mk

/-- Python's `str.replace(".git", "")`: remove EVERY non-overlapping occurrence
of `.git`, scanning left to right; emitted characters are not rescanned. -/
def replaceDotGitAux : List Char → List Char
  | '.' :: 'g' :: 'i' :: 't' :: rest => replaceDotGitAux rest
  | c :: rest => c :: replaceDotGitAux rest
  | [] => []

/-- `s.replace(".git", "")` from clone_all.py:221. -/
def pyReplaceDotGit (s : String) : String :=
  String.mk (replaceDotGitAux s.toList)

/-- `project_name = project_url.split("/")[-1].replace(".git", "")`
(clone_all.py:221): last `/`-separated segment (Python `[-1]`; the split is
never empty, so the default is dead), then remove occurrences of `.git`. -/
def project_name (project_url : String) : String :=
  pyReplaceDotGit ((pySplitSlash project_url).getLastD "")

/-- The observable effect of one `clone_project` call: the `git clone` process
invocation, with the URL argument and the target-path argument. The exit code
belongs to the oracle, not to the program's state: the code never stores it. -/
structure CloneInvocation where
  url : String
  path : String
deriving DecidableEq, Repr

/-- `clone_project` (clone_all.py:200-226). `git` is the external executable as
an oracle from (url, target path) to exit code. The source builds
`full_clone_path = f"\x7bclone_dir\x7d/\x7bproject_name\x7d"`, then runs
`subprocess.run(["git", "clone", project_url, full_clone_path], check=True)`,
which raises `CalledProcessError` exactly when the exit code is non-zero; the
`except` clause is `pass`, so the raise is swallowed and nothing of the exit
code escapes: the function is total and returns only the invocation it made. -/
def clone_project (git : String → String → Int) (project_url clone_dir : String) :
    CloneInvocation :=
  let pn := project_name project_url
  let full_clone_path := clone_dir ++ "/" ++ pn
  let exit_status := git project_url full_clone_path
  let _raised : Except Unit Unit :=
    if exit_status = 0 then Except.ok () else Except.error ()
  ⟨project_url, full_clone_path⟩

/-- The `for row in self.projects_store` loop of `on_clone_clicked`
(clone_all.py:179-187), accumulating the observable trace: the `git clone`
invocations made and the fractions `cloned_projects / total_projects` set on
the progress bar (floats modelled exactly as rationals). `cloned` carries the
running `cloned_projects` counter, `total` the precomputed `total_projects`. -/
def cloneLoop (git : String → String → Int) (clone_dir : String) (total : Nat) :
    Nat → List Row → List CloneInvocation × List ℚ
  | _, [] => ([], [])
  | cloned, row :: rest =>
    if row.1 then
      let inv := clone_project git row.2.2 clone_dir
      let fraction : ℚ := ((cloned + 1 : Nat) : ℚ) / (total : ℚ)
      let tail := cloneLoop git clone_dir total (cloned + 1) rest
      (inv :: tail.1, fraction :: tail.2)
    else
      cloneLoop git clone_dir total cloned rest

/-- `on_clone_clicked` (clone_all.py:165-187):
`total_projects = sum(1 for row in self.projects_store if row[0])`, then the
clone loop over every row with `cloned_projects` starting at 0. Returns the
observable trace (invocations, progress fractions). The division
`cloned_projects / total_projects` is evaluated only inside the
`if is_selected` branch, i.e. only where a fraction is emitted. -/
def on_clone_clicked (git : String → String → Int) (store : List Row)
    (clone_dir : String) : List CloneInvocation × List ℚ :=
  let total_projects := (store.filter (fun row => row.1)).length
  cloneLoop git clone_dir total_projects 0 store

/-- Claim C1. The spec requires `Load` to follow pagination until no pages
remain and return every project of the group; the source issues exactly one
request (`per_page=100`, implicit page 1) and returns at most 100 projects.
Evaluated at the failing input — a mocked paginated API backed by a group of
150 projects — the code returns only the first page: 100 of the 150 projects,
namely the first 100 in API order. -/
theorem c1_load_fetches_only_first_page :
    (get_projects_from_group (pagedApi (mockProjects 150)) "token" 7).length = 100 ∧
    (mockProjects 150).length = 150 ∧
    get_projects_from_group (pagedApi (mockProjects 150)) "token" 7 =
      ((mockProjects 150).take 100).map (fun p => (p.name, p.ssh_url_to_repo)) := by
  refine ⟨?_, ?_, ?_⟩ <;>
    simp [get_projects_from_group, pagedApi, mockProjects]

/-- Claim C3. A non-2xx response status is surfaced as an absent/empty result
(`none` from `get_group_id`, `[]` from `get_projects_from_group`) — both
functions are total, so no error is ever thrown; a 200 response with an empty
body yields the same `none`/`[]`, so callers indeed cannot distinguish
"no data" from "API error". -/
theorem c3_non2xx_surfaces_empty (rg : GroupsResponse) (rp : ProjectsResponse)
    (token gname : String) (gid : Int)
    (h1 : is2xx rg.status_code = false) (h2 : is2xx rp.status_code = false) :
    get_group_id (fun _ _ => rg) token gname = none ∧
    get_projects_from_group (fun _ _ _ _ => rp) token gid = [] := by
  have n1 : rg.status_code ≠ 200 := by
    intro e
    rw [is2xx, e] at h1
    simp at h1
  have n2 : rp.status_code ≠ 200 := by
    intro e
    rw [is2xx, e] at h2
    simp at h2
  constructor
  · simp [get_group_id, n1]
  · simp [get_projects_from_group, n2]

/-- Witness for C3: a 404 group search with a non-empty body resolves to
`none`, and a 500 project listing yields `[]`. -/
theorem c3_non2xx_surfaces_empty_witness :
    get_group_id (fun _ _ => (⟨404, [⟨7⟩]⟩ : GroupsResponse)) "t" "g" = none ∧
    get_projects_from_group (fun _ _ _ _ => (⟨500, [⟨"a", "u"⟩]⟩ : ProjectsResponse)) "t" 1 = [] :=
  c3_non2xx_surfaces_empty ⟨404, [⟨7⟩]⟩ ⟨500, [⟨"a", "u"⟩]⟩ "t" "g" 1 (by decide) (by decide)

/-- Claim C4. The claim's own example holds (`proj.git` yields `proj`), but
`replace(".git", "")` removes EVERY occurrence of `.git`, not only a trailing
one: for the cloneURL `git@gitlab.com:group/my.github.io.git` the code derives
`myhub.io` (the interior `.git` of `my.github` is also deleted), not the
`my.github.io` the claim requires. -/
theorem c4_replace_strips_inner_dot_git :
    project_name "git@gitlab.com:group/proj.git" = "proj" ∧
    project_name "git@gitlab.com:group/my.github.io.git" = "myhub.io" ∧
    project_name "git@gitlab.com:group/my.github.io.git" ≠ "my.github.io" := by
  refine ⟨by decide, by decide, by decide⟩

/-- Claim C5 counterexample: a response that IS a non-empty list (first id 7)
but carries the 2xx status 201 makes `get_group_id` return `none`, not the
first result's id: the code tests `status_code == 200`, not membership in 2xx,
so the claim as stated fails at this input. -/
theorem c5_status_201_returns_none :
    get_group_id (fun _ _ => (⟨201, [⟨7⟩]⟩ : GroupsResponse)) "t" "g" = none ∧
    get_group_id (fun _ _ => (⟨201, [⟨7⟩]⟩ : GroupsResponse)) "t" "g" ≠ some 7 :=
  ⟨rfl, by decide⟩

/-- Claim C5 (amended): for every group-name search whose API response has
status 200 and a non-empty list body, the resolver deterministically returns
the id of the first result in response order; when the body is empty or the
status is not 200 it reports not-found (`none`). -/
theorem c5_first_result_amended (resp : GroupsResponse) (token gname : String) :
    (resp.status_code = 200 → ∀ g gs, resp.body = g :: gs →
        get_group_id (fun _ _ => resp) token gname = some g.id) ∧
    ((resp.body = [] ∨ resp.status_code ≠ 200) →
        get_group_id (fun _ _ => resp) token gname = none) := by
  constructor
  · intro h200 g gs hb
    simp [get_group_id, h200, hb]
  · rintro (hb | hne)
    · by_cases h200 : resp.status_code = 200 <;> simp [get_group_id, h200, hb]
    · simp [get_group_id, hne]

/-- Witness for C5 (amended): a 200 response listing ids 7 then 9 resolves to
7; a 201 response with a non-empty body resolves to `none`. -/
theorem c5_first_result_amended_witness :
    get_group_id (fun _ _ => (⟨200, [⟨7⟩, ⟨9⟩]⟩ : GroupsResponse)) "t" "g" = some 7 ∧
    get_group_id (fun _ _ => (⟨201, [⟨8⟩]⟩ : GroupsResponse)) "t" "g" = none :=
  ⟨(c5_first_result_amended ⟨200, [⟨7⟩, ⟨9⟩]⟩ "t" "g").1 rfl ⟨7⟩ [⟨9⟩] rfl,
   (c5_first_result_amended ⟨201, [⟨8⟩]⟩ "t" "g").2 (Or.inr (by decide))⟩

/-- Unfolding `clone_project`: the invocation records the URL and the target
path `clone_dir/derived-name`, independently of the git oracle (whose exit
code is swallowed by the `except: pass`). -/
theorem clone_project_eq (git : String → String → Int) (project_url clone_dir : String) :
    clone_project git project_url clone_dir
      = ⟨project_url, clone_dir ++ "/" ++ project_name project_url⟩ := rfl

/-- Rows with no selected entry make the clone loop produce nothing, for any
counter value: the `if is_selected` guard skips every row. -/
theorem cloneLoop_no_selected (git : String → String → Int) (dir : String)
    (total : Nat) :
    ∀ (rows : List Row) (cloned : Nat), rows.filter (fun r => r.1) = [] →
      cloneLoop git dir total cloned rows = ([], []) := by
  intro rows
  induction rows with
  | nil =>
    intro cloned _
    rfl
  | cons r rs ih =>
    intro cloned h
    rw [List.filter_cons] at h
    cases hb : r.1 with
    | true =>
      rw [hb] at h
      simp at h
    | false =>
      rw [hb] at h
      simp only [Bool.false_eq_true, if_false] at h
      simp [cloneLoop, hb, ih cloned h]

/-- Claim C6. With zero selected projects the run emits no clone invocation and
no progress event: the trace is empty. In the source the division
`cloned_projects / total_projects` sits inside the `if is_selected` branch
(clone_all.py:184), the only place a fraction is produced, so an empty fraction
trace means the division was never evaluated — no division by zero occurs even
though `total_projects = 0`. -/
theorem c6_zero_selected_empty_run (git : String → String → Int) (store : List Row)
    (dir : String) (h : selectedRows store = []) :
    on_clone_clicked git store dir = ([], []) := by
  unfold on_clone_clicked
  exact cloneLoop_no_selected git dir _ store 0 h

/-- Witness for C6: a two-row catalog with nothing selected produces the empty
trace. -/
theorem c6_zero_selected_empty_run_witness :
    on_clone_clicked (fun _ _ => 0) [(false, "a", "ua"), (false, "b", "ub")] "/dest"
      = ([], []) :=
  c6_zero_selected_empty_run _ _ _ (by decide)

/-- The clone loop's trace, for any oracle and counter: one invocation per
selected row carrying that row's URL in store order, one progress event per
selected row, and the whole trace is independent of the oracle's exit codes. -/
theorem cloneLoop_trace (git git2 : String → String → Int) (dir : String)
    (total : Nat) :
    ∀ (rows : List Row) (cloned : Nat),
      (cloneLoop git dir total cloned rows).1.map (fun inv => inv.url)
          = (rows.filter (fun r => r.1)).map (fun r => r.2.2) ∧
      (cloneLoop git dir total cloned rows).2.length
          = (rows.filter (fun r => r.1)).length ∧
      cloneLoop git dir total cloned rows = cloneLoop git2 dir total cloned rows := by
  intro rows
  induction rows with
  | nil =>
    intro cloned
    exact ⟨rfl, rfl, rfl⟩
  | cons r rs ih =>
    intro cloned
    cases hb : r.1 with
    | true =>
      have h := ih (cloned + 1)
      refine ⟨?_, ?_, ?_⟩
      · simp [cloneLoop, hb, List.filter_cons, clone_project_eq, h.1]
      · simp [cloneLoop, hb, List.filter_cons, h.2.1]
      · simp [cloneLoop, hb, clone_project_eq, h.2.2]
    | false =>
      have h := ih cloned
      refine ⟨?_, ?_, ?_⟩
      · simp [cloneLoop, hb, List.filter_cons, h.1]
      · simp [cloneLoop, hb, List.filter_cons, h.2.1]
      · simp [cloneLoop, hb, h.2.2]

/-- Claim C2 (amended). A non-zero exit status never aborts the batch and never
raises out of the run (`clone_project` swallows `CalledProcessError`, and the
whole run is a total function): the run invokes the clone command once for
every selected project, in catalog order, and emits one progress event per
selected project — N events for N selected — regardless of which clones fail.
However, no per-project success/failure outcome is recorded: the run's entire
output is identical for any two git oracles. -/
theorem c2_failure_isolation_amended (git git2 : String → String → Int)
    (store : List Row) (dir : String) :
    (on_clone_clicked git store dir).1.map (fun inv => inv.url)
        = (selectedRows store).map (fun r => r.2.2) ∧
    (on_clone_clicked git store dir).2.length = (selectedRows store).length ∧
    on_clone_clicked git store dir = on_clone_clicked git2 store dir := by
  unfold on_clone_clicked selectedRows
  exact cloneLoop_trace git git2 dir _ store 0

/-- Claim C2 counterexample: over three selected projects with `git` failing
(exit 1) on the second project's clone and succeeding on the others, the run's
entire observable output — invocations and progress events — is EQUAL to that
of an all-success run. The batch does continue through all three projects, but
no outcome is produced that marks the second as failed, refuting "the run
records that outcome ... producing N outcomes" with "outcome M marked failed":
success and failure are indistinguishable in the run's output and state. -/
theorem c2_no_outcome_recorded :
    on_clone_clicked (fun u _ => if u = "git@g:x/b.git" then 1 else 0)
        [(true, "a", "git@g:x/a.git"), (true, "b", "git@g:x/b.git"),
         (true, "c", "git@g:x/c.git")] "/dest"
      = on_clone_clicked (fun _ _ => 0)
        [(true, "a", "git@g:x/a.git"), (true, "b", "git@g:x/b.git"),
         (true, "c", "git@g:x/c.git")] "/dest"
    ∧ (fun u (_ : String) => if u = "git@g:x/b.git" then (1 : Int) else 0)
        "git@g:x/b.git" "/dest/b" ≠ 0 :=
  ⟨rfl, by decide⟩

/-- `on_cell_toggled` applied twice at the same path restores the store. -/
theorem on_cell_toggled_twice (s : List Row) (p : Nat) :
    on_cell_toggled (on_cell_toggled s p) p = s := by
  induction s generalizing p with
  | nil => cases p <;> rfl
  | cons r rs ih =>
    cases p with
    | zero => simp [on_cell_toggled]
    | succ n => simp [on_cell_toggled, ih n]

/-- At the targeted path, one toggle flips exactly the boolean column. -/
theorem on_cell_toggled_get_eq (s : List Row) (p : Nat) :
    (on_cell_toggled s p)[p]? = (s[p]?).map (fun r => (!r.1, r.2)) := by
  induction s generalizing p with
  | nil => cases p <;> rfl
  | cons r rs ih =>
    cases p with
    | zero => simp [on_cell_toggled]
    | succ n => simpa [on_cell_toggled] using ih n

/-- Away from the targeted path, a toggle changes nothing. -/
theorem on_cell_toggled_get_ne (s : List Row) (p i : Nat) (h : i ≠ p) :
    (on_cell_toggled s p)[i]? = s[i]? := by
  induction s generalizing p i with
  | nil => cases p <;> rfl
  | cons r rs ih =>
    cases p with
    | zero =>
      cases i with
      | zero => exact absurd rfl h
      | succ j => simp [on_cell_toggled]
    | succ n =>
      cases i with
      | zero => simp [on_cell_toggled]
      | succ j =>
        have hj : j ≠ n := fun e => h (by rw [e])
        simpa [on_cell_toggled] using ih n j hj

/-- Claim C7. Toggling the entry at a valid path twice returns the catalog to
its original state; a single toggle flips the selected flag of exactly the
targeted entry (its name and cloneURL columns are untouched — only the boolean
is negated) and leaves every other row unchanged. -/
theorem c7_toggle_involutive_and_local (store : List Row) (path : Nat)
    (_h : path < store.length) :
    on_cell_toggled (on_cell_toggled store path) path = store ∧
    (on_cell_toggled store path)[path]? = (store[path]?).map (fun r => (!r.1, r.2)) ∧
    ∀ i, i ≠ path → (on_cell_toggled store path)[i]? = store[i]? :=
  ⟨on_cell_toggled_twice store path, on_cell_toggled_get_eq store path,
   fun i hi => on_cell_toggled_get_ne store path i hi⟩

/-- Witness for C7: on a concrete two-row catalog, toggling row 0 twice
restores the catalog, a single toggle at row 0 flips only its flag, and row 1
is untouched. -/
theorem c7_toggle_involutive_and_local_witness :
    on_cell_toggled (on_cell_toggled [(false, "a", "ua"), (true, "b", "ub")] 0) 0
      = [(false, "a", "ua"), (true, "b", "ub")] ∧
    (on_cell_toggled [(false, "a", "ua"), (true, "b", "ub")] 0)[0]?
      = some (true, "a", "ua") ∧
    (on_cell_toggled [(false, "a", "ua"), (true, "b", "ub")] 0)[1]?
      = some (true, "b", "ub") := by
  have h := c7_toggle_involutive_and_local [(false, "a", "ua"), (true, "b", "ub")] 0
    (by decide)
  refine ⟨h.1, ?_, ?_⟩
  · rw [h.2.1]
    decide
  · rw [h.2.2 1 (by decide)]
    decide

/-- Claim C8. After `on_select_all_clicked`, the selected subset is the whole
catalog: every entry's flag is true, and filtering by the flag returns all
entries with their names and cloneURLs in the original catalog order. -/
theorem c8_select_all_then_selected (store : List Row) :
    selectedRows (on_select_all_clicked store) = on_select_all_clicked store ∧
    (selectedRows (on_select_all_clicked store)).map (fun r => r.2)
      = store.map (fun r => r.2) := by
  have h1 : selectedRows (on_select_all_clicked store) = on_select_all_clicked store := by
    induction store with
    | nil => rfl
    | cons r rs ih =>
      simp only [on_select_all_clicked, List.map_cons, selectedRows,
        List.filter_cons, if_pos] at ih ⊢
      simp [ih]
  refine ⟨h1, ?_⟩
  rw [h1]
  simp [on_select_all_clicked, List.map_map, Function.comp]

/-- `on_check_clicked` rebuilds the store from scratch: clearing then appending
row-by-row equals mapping the fetched pairs to unselected rows. -/
theorem on_check_clicked_eq_map (store : List Row) (projects : List (String × String)) :
    on_check_clicked store projects
      = projects.map (fun p => (false, p.1, p.2)) := by
  unfold on_check_clicked
  suffices h : ∀ (l : List (String × String)) (acc : List Row),
      l.foldl (fun s p => s ++ [(false, p.1, p.2)]) acc
        = acc ++ l.map (fun p => (false, p.1, p.2)) by
    simpa using h projects []
  intro l
  induction l with
  | nil => intro acc; simp
  | cons p ps ih =>
    intro acc
    simp [ih]

/-- Claim C9. A fetch replaces the catalog wholesale: the store after
`on_check_clicked` is exactly the fetched projects (in fetch order, unselected)
and does not depend on the previous store in any way — no entry of a previous
catalog survives and catalogs are never merged. -/
theorem c9_check_replaces_catalog (s1 s2 : List Row)
    (projects : List (String × String)) :
    on_check_clicked s1 projects = projects.map (fun p => (false, p.1, p.2)) ∧
    on_check_clicked s1 projects = on_check_clicked s2 projects := by
  rw [on_check_clicked_eq_map, on_check_clicked_eq_map]
  exact ⟨rfl, rfl⟩

/-- Claim C10. Immediately after a catalog is loaded by the check action every
row's selected flag is false, so the selected subset is empty. -/
theorem c10_fresh_catalog_unselected (store : List Row)
    (projects : List (String × String)) :
    selectedRows (on_check_clicked store projects) = [] ∧
    (on_check_clicked store projects).all (fun r => r.1 == false) = true := by
  rw [on_check_clicked_eq_map]
  constructor
  · induction projects with
    | nil => rfl
    | cons p ps ih =>
      simp only [List.map_cons, selectedRows, List.filter_cons] at ih ⊢
      simp [ih]
  · simp [List.all_map]

end CloneAll
